import Mathlib

/-!
Verification of the promote-shadow administrative command
(src/src/admin/promote_shadow_command.cc) of the lizardfs repository.

The single operation `PromoteShadowCommand::run` is embedded as a pure
function over an environment that supplies everything coming from outside
the file: the password read by `get_password()`, the status returned by
`register_master_connection`, the two responses delivered by
`ServerConnection::sendAndReceive`, and the library function `mfsstrerr`.
The result records the observable trace of one execution: the lines written
to the error stream, the admin exchanges sent after registration, how many
times the password source was consulted, whether a connection was opened,
and the final outcome (wrong-usage exception, `exit(code)`, or a normal
return).
-/

/-- The MFS status code for success (`STATUS_OK`).  The constant is defined
outside src/; modelled from the spec: "StatusCode: an enumerated result of
any single exchange (OK, or one of several failure kinds)" — OK is a single
distinguished value, represented as 0. -/
def STATUS_OK : Nat := 0

/-- The protocol constant for the MASTER role in a metadataserver-status
response (`LIZ_METADATASERVER_STATUS_MASTER`).  The constant is defined
outside src/; modelled from the spec: "Role: enumerated state of a metadata
node ... Used only as the expected terminal value after promotion" — only
its identity as the MASTER value matters, represented as 1. -/
def LIZ_METADATASERVER_STATUS_MASTER : Nat := 1

/-- An admin exchange sent through `ServerConnection::sendAndReceive` after
registration: the become-master command (`cltoma::adminBecomeMaster`) or the
metadataserver status query (`cltoma::metadataserverStatus`) carrying its
request identifier. -/
inductive Message where
  | becomeMaster : Message
  | metadataserverStatus : Nat → Message
deriving DecidableEq, Repr

/-- How one execution of `run` terminates: a `WrongUsageException`, a call
of `exit(code)`, or a normal return (process exit code 0). -/
inductive Outcome where
  | wrongUsage : String → Outcome
  | exited : Nat → Outcome
  | returned : Outcome
deriving DecidableEq, Repr

/-- The become-master response.  Its payload is never deserialized by the
source file; modelled from the spec: "PromoteRequest/PromoteResponse(StatusCode)"
— it carries one StatusCode. -/
structure PromoteResponse where
  status : Nat
deriving DecidableEq, Repr

/-- The fields deserialized from a metadataserver-status response by
`matocl::metadataserverStatus::deserialize`: message id, status (the role),
and metadata version. -/
structure StatusQueryResponse where
  messageId : Nat
  status : Nat
  metadataVersion : Nat
deriving DecidableEq, Repr

/-- The command-line options object: the list of positional arguments. -/
structure Options where
  arguments : List String
deriving DecidableEq, Repr

/-- The environment of one execution: everything `run` obtains from outside
the source file.  `get_password` is the string returned by the password
prompt; `registerStatus` the status returned by `register_master_connection`;
`becomeMasterResponse` and `statusQueryResponse` the two responses delivered
by the remote node; `mfsstrerr` the (external) status-to-string library
function. -/
structure Env where
  get_password : String
  registerStatus : Nat
  becomeMasterResponse : PromoteResponse
  statusQueryResponse : StatusQueryResponse
  mfsstrerr : Nat → String

/-- The observable trace of one execution of `run`. -/
structure RunResult where
  stderrLines : List String
  exchanges : List Message
  passwordCalls : Nat
  connectionOpened : Bool
  outcome : Outcome
deriving DecidableEq, Repr

/-- `PromoteShadowCommand::name`. -/
def PromoteShadowCommand.name : String := "promote-shadow"

/-- `LizardFsProbeCommand::SupportedOptions`: the set of flags a command
recognizes, as a list of options. -/
abbrev LizardFsProbeCommand.SupportedOptions := List (String × String)

/-- `PromoteShadowCommand::supportedOptions`: returns the empty set. -/
def PromoteShadowCommand.supportedOptions : LizardFsProbeCommand.SupportedOptions := []

/-- Shallow embedding of `PromoteShadowCommand::run`
(src/src/admin/promote_shadow_command.cc, lines 29-60), line by line:
argument-count check; `get_password()`; `ServerConnection` construction;
`register_master_connection` with the "Wrong password" exit; the
become-master exchange, whose response is received but never deserialized,
so the subsequent `mfsstrerr(status)` print and `status != STATUS_OK` test
still see the registration status; the metadataserver-status exchange with
request id 1, whose deserialized status is compared against
`LIZ_METADATASERVER_STATUS_MASTER`. -/
def PromoteShadowCommand.run (env : Env) (options : Options) : RunResult :=
  -- if (options.arguments().size() != 2) throw WrongUsageException(...)
  if options.arguments.length ≠ 2 then
    { stderrLines := [], exchanges := [], passwordCalls := 0, connectionOpened := false,
      outcome := Outcome.wrongUsage
        ("Expected <shadow ip> and <shadow port>" ++ " for " ++ PromoteShadowCommand.name) }
  else
    -- std::string password = get_password();
    -- ServerConnection connection(options.argument(0), options.argument(1));
    -- uint8_t status = register_master_connection(connection, password);
    let status := env.registerStatus
    if status ≠ STATUS_OK then
      -- std::cerr << "Wrong password" << std::endl; exit(1);
      { stderrLines := ["Wrong password"], exchanges := [], passwordCalls := 1,
        connectionOpened := true, outcome := Outcome.exited 1 }
    else
      -- auto becomeMasterResponse = connection.sendAndReceive(
      --     cltoma::adminBecomeMaster::build(), LIZ_MATOCL_ADMIN_BECOME_MASTER);
      -- the response is never deserialized: status keeps the registration value
      -- std::cerr << mfsstrerr(status) << std::endl;
      let line := env.mfsstrerr status
      if status ≠ STATUS_OK then
        -- if (status != STATUS_OK) exit(1);
        { stderrLines := [line], exchanges := [Message.becomeMaster], passwordCalls := 1,
          connectionOpened := true, outcome := Outcome.exited 1 }
      else
        -- auto response = connection.sendAndReceive(
        --     cltoma::metadataserverStatus::build(1), LIZ_MATOCL_METADATASERVER_STATUS);
        -- matocl::metadataserverStatus::deserialize(response, messageId, status, metadataVersion);
        let resp := env.statusQueryResponse
        if resp.status ≠ LIZ_METADATASERVER_STATUS_MASTER then
          -- std::cerr << "Metadata server promotion failed for unknown reason"; exit(1);
          { stderrLines := [line, "Metadata server promotion failed for unknown reason"],
            exchanges := [Message.becomeMaster, Message.metadataserverStatus 1],
            passwordCalls := 1, connectionOpened := true, outcome := Outcome.exited 1 }
        else
          { stderrLines := [line],
            exchanges := [Message.becomeMaster, Message.metadataserverStatus 1],
            passwordCalls := 1, connectionOpened := true, outcome := Outcome.returned }

/-- A concrete model of `mfsstrerr` for concrete executions: "OK" for
`STATUS_OK`, a distinct string otherwise. -/
def strerrModel : Nat → String := fun s => if s = 0 then "OK" else "ERROR"

/-- Concrete two-argument invocation from the spec scenarios. -/
def opts2 : Options := { arguments := ["10.0.0.5", "9420"] }

/-- One-argument invocation, for the wrong-usage path. -/
def opts1 : Options := { arguments := ["10.0.0.5"] }

/-- Environment for C1: authentication OK, become-master response carries a
non-OK status (19), status query reports MASTER. -/
def envC1 : Env :=
  { get_password := "secret", registerStatus := STATUS_OK,
    becomeMasterResponse := { status := 19 },
    statusQueryResponse := { messageId := 1, status := LIZ_METADATASERVER_STATUS_MASTER,
                             metadataVersion := 5 },
    mfsstrerr := strerrModel }

/-- Environment for C2: authentication OK, promotion OK, status query
reports a non-MASTER role (3). -/
def envC2 : Env :=
  { get_password := "secret", registerStatus := STATUS_OK,
    becomeMasterResponse := { status := STATUS_OK },
    statusQueryResponse := { messageId := 1, status := 3, metadataVersion := 5 },
    mfsstrerr := strerrModel }

/-- Environment for C3: the all-OK success path. -/
def envC3 : Env :=
  { get_password := "secret", registerStatus := STATUS_OK,
    becomeMasterResponse := { status := STATUS_OK },
    statusQueryResponse := { messageId := 1, status := LIZ_METADATASERVER_STATUS_MASTER,
                             metadataVersion := 5 },
    mfsstrerr := strerrModel }

/-- Environment for C4: authentication rejected (status 25). -/
def envC4 : Env :=
  { get_password := "guess", registerStatus := 25,
    becomeMasterResponse := { status := STATUS_OK },
    statusQueryResponse := { messageId := 1, status := LIZ_METADATASERVER_STATUS_MASTER,
                             metadataVersion := 5 },
    mfsstrerr := strerrModel }

/-- Environment for C5: authentication OK, become-master response carries a
non-OK status (19), status query reports MASTER. -/
def envC5 : Env :=
  { get_password := "secret", registerStatus := STATUS_OK,
    becomeMasterResponse := { status := 19 },
    statusQueryResponse := { messageId := 1, status := LIZ_METADATASERVER_STATUS_MASTER,
                             metadataVersion := 7 },
    mfsstrerr := strerrModel }

/-- Environment for C6: the status-query response echoes identifier 42
instead of the 1 that was sent, and reports MASTER. -/
def envC6 : Env :=
  { get_password := "secret", registerStatus := STATUS_OK,
    becomeMasterResponse := { status := STATUS_OK },
    statusQueryResponse := { messageId := 42, status := LIZ_METADATASERVER_STATUS_MASTER,
                             metadataVersion := 7 },
    mfsstrerr := strerrModel }

/-- C1: the claim says that with authentication OK and a non-OK Issue
Promotion status the operation fails immediately and the Verify Promotion
query is never sent (exactly one post-authentication exchange).  The code
never deserializes the become-master response, so the non-OK status is
never seen: both post-authentication exchanges are sent and the run even
returns normally. -/
theorem c1_step2_sent_despite_promote_failure :
    envC1.becomeMasterResponse.status ≠ STATUS_OK ∧
    (PromoteShadowCommand.run envC1 opts2).exchanges =
      [Message.becomeMaster, Message.metadataserverStatus 1] ∧
    (PromoteShadowCommand.run envC1 opts2).outcome = Outcome.returned := by
  decide

/-- C2 counterexample: on the verification-mismatch path the process exits
with status 1, but the exact message "promotion failed for unknown reason"
quoted by the claim is never printed — the line actually written is
"Metadata server promotion failed for unknown reason". -/
theorem c2_message_counterexample :
    (PromoteShadowCommand.run envC2 opts2).outcome = Outcome.exited 1 ∧
    ("promotion failed for unknown reason") ∉
      (PromoteShadowCommand.run envC2 opts2).stderrLines := by
  decide

/-- C2 (amended): for every execution with two arguments in which
authentication and the promotion command both returned OK, if the status
query's reported role differs from MASTER, the operation exits with status
1 — never a success — after printing the line
"Metadata server promotion failed for unknown reason". -/
theorem c2_verify_mismatch_fails (env : Env) (opts : Options)
    (hargs : opts.arguments.length = 2)
    (hauth : env.registerStatus = STATUS_OK)
    (hpromote : env.becomeMasterResponse.status = STATUS_OK)
    (hrole : env.statusQueryResponse.status ≠ LIZ_METADATASERVER_STATUS_MASTER) :
    (PromoteShadowCommand.run env opts).outcome = Outcome.exited 1 ∧
    ("Metadata server promotion failed for unknown reason") ∈
      (PromoteShadowCommand.run env opts).stderrLines := by
  simp [PromoteShadowCommand.run, hargs, hauth, hrole]

/-- C2 witness: the amended theorem applied to a concrete mismatch run. -/
theorem c2_verify_mismatch_fails_witness :
    (PromoteShadowCommand.run envC2 opts2).outcome = Outcome.exited 1 ∧
    ("Metadata server promotion failed for unknown reason") ∈
      (PromoteShadowCommand.run envC2 opts2).stderrLines :=
  c2_verify_mismatch_fails envC2 opts2 (by decide) (by decide) (by decide) (by decide)

/-- C3: the claim says the all-OK execution succeeds and writes nothing to
the error stream.  The run does return normally, but the code
unconditionally prints `mfsstrerr(status)` — the line "OK" — to the error
stream after the become-master exchange, so the error stream is not empty. -/
theorem c3_success_path_writes_to_stderr :
    (PromoteShadowCommand.run envC3 opts2).outcome = Outcome.returned ∧
    (PromoteShadowCommand.run envC3 opts2).stderrLines = ["OK"] ∧
    (PromoteShadowCommand.run envC3 opts2).stderrLines ≠ [] := by
  decide

/-- C4: whenever authentication returns a non-OK status on a two-argument
invocation, the run prints exactly "Wrong password" to the error stream,
exits with status 1, and sends neither the become-master command nor the
status query. -/
theorem c4_wrong_password (env : Env) (opts : Options)
    (hargs : opts.arguments.length = 2)
    (hauth : env.registerStatus ≠ STATUS_OK) :
    (PromoteShadowCommand.run env opts).stderrLines = ["Wrong password"] ∧
    (PromoteShadowCommand.run env opts).outcome = Outcome.exited 1 ∧
    (PromoteShadowCommand.run env opts).exchanges = [] := by
  simp [PromoteShadowCommand.run, hargs, hauth]

/-- C4 witness: the theorem applied to a concrete rejected-credential run. -/
theorem c4_wrong_password_witness :
    (PromoteShadowCommand.run envC4 opts2).stderrLines = ["Wrong password"] ∧
    (PromoteShadowCommand.run envC4 opts2).outcome = Outcome.exited 1 ∧
    (PromoteShadowCommand.run envC4 opts2).exchanges = [] :=
  c4_wrong_password envC4 opts2 (by decide) (by decide)

/-- C5: the claim says a non-OK promotion status gets its failure reason
printed verbatim before the operation terminates.  The code never reads the
promotion response: with promotion status 19 the only line printed is "OK"
(`mfsstrerr` of the stale OK registration status), the reason string for
status 19 never appears, and the run does not terminate with a failure at
all — it proceeds to the status query and returns normally. -/
theorem c5_reason_not_surfaced :
    envC5.becomeMasterResponse.status ≠ STATUS_OK ∧
    (PromoteShadowCommand.run envC5 opts2).stderrLines = ["OK"] ∧
    envC5.mfsstrerr envC5.becomeMasterResponse.status ∉
      (PromoteShadowCommand.run envC5 opts2).stderrLines ∧
    (PromoteShadowCommand.run envC5 opts2).outcome = Outcome.returned := by
  decide

/-- C6 counterexample: the status-query response echoes identifier 42, not
the 1 that was sent, yet the run accepts it as a valid verification result
and returns normally. -/
theorem c6_mismatched_id_accepted :
    envC6.statusQueryResponse.messageId ≠ 1 ∧
    (PromoteShadowCommand.run envC6 opts2).outcome = Outcome.returned := by
  decide

/-- C6 (amended): every status query that is sent carries request
identifier 1, but the identifier echoed in the response is deserialized and
then ignored: the entire observable result of the run is unchanged whatever
identifier the response carries. -/
theorem c6_request_id_fixed_and_unchecked (env : Env) (opts : Options) (mid n : Nat)
    (h : Message.metadataserverStatus n ∈ (PromoteShadowCommand.run env opts).exchanges) :
    n = 1 ∧
    PromoteShadowCommand.run
      { env with statusQueryResponse := { env.statusQueryResponse with messageId := mid } }
      opts =
    PromoteShadowCommand.run env opts := by
  refine ⟨?_, rfl⟩
  simp only [PromoteShadowCommand.run] at h
  split at h
  · simp at h
  · split at h
    · simp at h
    · split at h <;> simp at h <;> omega

/-- C6 witness: the amended theorem applied to a run that reaches the
status query, with response identifier 42. -/
theorem c6_request_id_fixed_and_unchecked_witness :
    1 = 1 ∧
    PromoteShadowCommand.run
      { envC6 with statusQueryResponse := { envC6.statusQueryResponse with messageId := 42 } }
      opts2 =
    PromoteShadowCommand.run envC6 opts2 :=
  c6_request_id_fixed_and_unchecked envC6 opts2 42 1 (by decide)

/-- C7: with an argument count other than 2, run throws the wrong-usage
exception without reading the password or opening a connection, and sends
no exchange; moreover the command's set of supported options is empty. -/
theorem c7_wrong_usage (env : Env) (opts : Options)
    (h : opts.arguments.length ≠ 2) :
    (PromoteShadowCommand.run env opts).outcome =
      Outcome.wrongUsage
        ("Expected <shadow ip> and <shadow port>" ++ " for " ++ PromoteShadowCommand.name) ∧
    (PromoteShadowCommand.run env opts).passwordCalls = 0 ∧
    (PromoteShadowCommand.run env opts).connectionOpened = false ∧
    (PromoteShadowCommand.run env opts).exchanges = [] ∧
    PromoteShadowCommand.supportedOptions = [] := by
  simp [PromoteShadowCommand.run, h, PromoteShadowCommand.supportedOptions]

/-- C7 witness: the theorem applied to a one-argument invocation. -/
theorem c7_wrong_usage_witness :
    (PromoteShadowCommand.run envC3 opts1).outcome =
      Outcome.wrongUsage
        ("Expected <shadow ip> and <shadow port>" ++ " for " ++ PromoteShadowCommand.name) ∧
    (PromoteShadowCommand.run envC3 opts1).passwordCalls = 0 ∧
    (PromoteShadowCommand.run envC3 opts1).connectionOpened = false ∧
    (PromoteShadowCommand.run envC3 opts1).exchanges = [] ∧
    PromoteShadowCommand.supportedOptions = [] :=
  c7_wrong_usage envC3 opts1 (by decide)

/-- C8: on every two-argument invocation the password source is consulted
exactly once, whatever the later outcome. -/
theorem c8_password_read_once (env : Env) (opts : Options)
    (h : opts.arguments.length = 2) :
    (PromoteShadowCommand.run env opts).passwordCalls = 1 := by
  unfold PromoteShadowCommand.run
  rw [if_neg (by simp [h])]
  dsimp only
  split
  · rfl
  · split <;> rfl

/-- C8 witness: the theorem applied to a concrete two-argument run. -/
theorem c8_password_read_once_witness :
    (PromoteShadowCommand.run envC4 opts2).passwordCalls = 1 :=
  c8_password_read_once envC4 opts2 (by decide)

/-- C9: whenever a run terminates through exit, the exit status is exactly
1: every runtime failure path after argument parsing uses `exit(1)`. -/
theorem c9_failure_exit_code_is_one (env : Env) (opts : Options) (c : Nat)
    (h : (PromoteShadowCommand.run env opts).outcome = Outcome.exited c) :
    c = 1 := by
  simp only [PromoteShadowCommand.run] at h
  split at h
  · simp at h
  · split at h
    · simp at h
      omega
    · split at h <;> simp at h <;> omega

/-- C9 witness: the theorem applied to the rejected-credential run, which
exits with status 1. -/
theorem c9_failure_exit_code_is_one_witness : (1 : Nat) = 1 :=
  c9_failure_exit_code_is_one envC4 opts2 1 (by decide)

/-- C10: the echoed request identifier and the metadata version of the
status-query response have no influence on the run: replacing them by any
other values leaves the entire observable result — error-stream output,
exchanges, and outcome — unchanged. -/
theorem c10_status_response_extras_ignored (env : Env) (opts : Options) (mid mv : Nat) :
    PromoteShadowCommand.run
      { env with statusQueryResponse :=
          { env.statusQueryResponse with messageId := mid, metadataVersion := mv } }
      opts =
    PromoteShadowCommand.run env opts := rfl
